import Mathlib

/-!
Shallow embedding of the ha-ai-tasker service (src/main.py, src/matrix_bot.py).

The service is a FastAPI app plus a Matrix chat bot.  The pure logic embedded
here is the conversation buffer (`collections.deque(maxlen=10)` plus
`MatrixChatBot.get_conversation_context`), the inbound-message handler
`MatrixChatBot._handle_message`, and the two HTTP endpoints `POST /process`
and `GET /summary`.  The external reasoning component (`Runner.run` over an
OpenAI agent with MCP tools) is modelled as an oracle parameter: a function
from the prompt (and, for `/summary`, the memory snapshot reachable through
the MCP memory tools) to `Except String String`, where `Except.error e`
stands for the Python call raising an exception with text `e` and
`Except.ok out` stands for a normal return with `final_output = out`.
-/

/-- Timestamps.  The source stores `datetime.now().isoformat()` strings in the
buffer and re-parses them with `datetime.fromisoformat`, a lossless round
trip; the embedding keeps the structured value and renders it on demand. -/
structure PyDateTime where
  year : Nat
  month : Nat
  day : Nat
  hour : Nat
  minute : Nat
  second : Nat
  microsecond : Nat
deriving DecidableEq, Repr

/-- Zero-padded decimal rendering, as Python `%02d`-style fields. -/
def padNum (width n : Nat) : String :=
  let s := toString n
  String.mk (List.replicate (width - s.length) '0') ++ s

/-- `datetime.isoformat()`: `YYYY-MM-DDTHH:MM:SS[.ffffff]`, the fractional
part omitted when `microsecond == 0`. -/
def PyDateTime.isoformat (t : PyDateTime) : String :=
  padNum 4 t.year ++ "-" ++ padNum 2 t.month ++ "-" ++ padNum 2 t.day ++ "T" ++
    padNum 2 t.hour ++ ":" ++ padNum 2 t.minute ++ ":" ++ padNum 2 t.second ++
    (if t.microsecond = 0 then "" else "." ++ padNum 6 t.microsecond)

/-- `strftime("%Y-%m-%d %H:%M")`, used both by
`get_conversation_context(include_timestamps=True)` and by `/summary`. -/
def PyDateTime.fmtMinute (t : PyDateTime) : String :=
  padNum 4 t.year ++ "-" ++ padNum 2 t.month ++ "-" ++ padNum 2 t.day ++ " " ++
    padNum 2 t.hour ++ ":" ++ padNum 2 t.minute

/-- One entry of `MatrixChatBot.conversation_history` (matrix_bot.py:70-74):
`{"sender": event.sender, "message": event.body, "timestamp": now}`. -/
structure ChatMessage where
  sender : String
  message : String
  timestamp : PyDateTime
deriving DecidableEq, Repr

/-- `collections.deque(maxlen=cap).append(x)`: append on the right, silently
dropping the oldest (leftmost) element once the deque holds `cap` items. -/
def dequeAppend (cap : Nat) (d : List ChatMessage) (x : ChatMessage) : List ChatMessage :=
  let d2 := d ++ [x]
  d2.drop (d2.length - cap)

/-- The buffer contents after appending a whole sequence of messages to an
initially empty `deque(maxlen=10)` (matrix_bot.py:25). -/
def historyAfter (msgs : List ChatMessage) : List ChatMessage :=
  msgs.foldl (dequeAppend 10) []

/-- Python slice `l[-k:]` for a non-negative `k`: the last `k` elements,
except that `l[-0:]` is `l[0:]`, i.e. the whole list. -/
def pyTailSlice (l : List ChatMessage) (k : Nat) : List ChatMessage :=
  if k = 0 then l else l.drop (l.length - k)

/-- matrix_bot.py:166 — `list(h)[-max_messages:] if len(h) > max_messages
else list(h)`. -/
def recentMessages (hist : List ChatMessage) (maxMessages : Nat) : List ChatMessage :=
  if maxMessages < hist.length then pyTailSlice hist maxMessages else hist

/-- matrix_bot.py:170 — `msg["sender"].split(":")[0].replace("@", "")`:
keep the part before the first colon, then delete every `@`. -/
def normalizeSender (s : String) : String :=
  String.mk ((s.toList.takeWhile (fun c => c ≠ ':')).filter (fun c => c ≠ '@'))

/-- Python truthiness of the optional `system_username` constructor argument
(`None` and the empty string are falsy). -/
def pyTruthy : Option String → Bool
  | none => false
  | some v => v ≠ ""

/-- matrix_bot.py:173-176 — `"system" if self.system_username and
sender_name == self.system_username else sender_name`. -/
def roleFor (systemUsername : Option String) (senderName : String) : String :=
  if pyTruthy systemUsername ∧ some senderName = systemUsername then "system"
  else senderName

/-- matrix_bot.py:178-183 — one rendered line of the conversation context. -/
def formatLine (systemUsername : Option String) (includeTimestamps : Bool)
    (msg : ChatMessage) : String :=
  let role := roleFor systemUsername (normalizeSender msg.sender)
  if includeTimestamps then
    "[" ++ msg.timestamp.fmtMinute ++ "] " ++ role ++ ": " ++ msg.message
  else
    role ++ ": " ++ msg.message

/-- The `MatrixChatBot` state relevant to the embedded operations.  The
connection configuration (`homeserver`, `password`, the nio client) only
feeds the external transport and is omitted.  `user_id` stands for
`client.user_id`, `start_time_ms` for `start_time.timestamp() * 1000`, and
`mcp_available` for the flag set in the constructor (matrix_bot.py:28-38). -/
structure BotState where
  user_id : String
  room_id : String
  system_username : Option String
  start_time_ms : Int
  mcp_available : Bool
  conversation_history : List ChatMessage
deriving Repr

/-- matrix_bot.py:152-185 — `get_conversation_context`: `None` on an empty
buffer, otherwise the header line followed by one formatted line per
selected message, joined with newlines. -/
def getConversationContext (bot : BotState) (maxMessages : Nat)
    (includeTimestamps : Bool) : Option String :=
  if bot.conversation_history.isEmpty then none
  else some (String.intercalate "\n"
    ("Recent conversation history:" ::
      (recentMessages bot.conversation_history maxMessages).map
        (formatLine bot.system_username includeTimestamps)))

/-- matrix_bot.py:187-192 — `_build_conversation_context`. -/
def buildConversationContext (bot : BotState) : String :=
  match getConversationContext bot 10 false with
  | none => "No previous conversation history."
  | some c =>
      c ++ "\n\nPlease respond to the most recent message considering this conversation context."

/-- The fields of a nio `RoomMessageText` event read by the handler. -/
structure MessageEvent where
  sender : String
  body : String
  server_timestamp : Int
deriving Repr

/-- Observable outcome of one `_handle_message` call: the buffer afterwards,
the bodies of the messages sent to the room (in order), and whether the
reasoning run (`Runner.run`) was reached. -/
structure HandleResult where
  history : List ChatMessage
  sent : List String
  runInvoked : Bool
deriving Repr

/-- matrix_bot.py:146 — the constant body sent by the outer error handler. -/
def apologyMessage : String := "Sorry, I encountered an unexpected error."

/-- matrix_bot.py:57-150 — `_handle_message`.  `oracle` is the external
reasoning call on the built conversation context; `sendExc` is `some e` when
`client.room_send` of the normal response raises (text `e`), in which case
control reaches the outer `except` block, which sends the fixed apology.
An oracle error is caught by the inner `except` (matrix_bot.py:121-123),
which returns without sending anything. -/
def handleMessage (bot : BotState) (oracle : String → Except String String)
    (sendExc : Option String) (roomId : String) (ev : MessageEvent)
    (now : PyDateTime) : HandleResult :=
  if roomId ≠ bot.room_id then
    ⟨bot.conversation_history, [], false⟩
  else if ev.server_timestamp < bot.start_time_ms then
    ⟨bot.conversation_history, [], false⟩
  else
    let hist := dequeAppend 10 bot.conversation_history ⟨ev.sender, ev.body, now⟩
    if ev.sender = bot.user_id then ⟨hist, [], false⟩
    else if bot.mcp_available = false then ⟨hist, [], false⟩
    else
      match oracle (buildConversationContext { bot with conversation_history := hist }) with
      | Except.error _ => ⟨hist, [], true⟩
      | Except.ok resp =>
        match sendExc with
        | none => ⟨hist, [resp], true⟩
        | some _ => ⟨hist, [apologyMessage], true⟩

/-- A memory-store entry as the MCP memory service presents it to the
reasoning component (main.py never touches entries itself; they are only
reachable through the agent's tool calls, so they enter the model solely as
the oracle's input). -/
structure MemoryEntry where
  entryType : String
  content : String
deriving DecidableEq, Repr

/-- Whether the string `tok` occurs as a contiguous substring of `s`
(Python `tok in s`), via an executable scan over the character lists. -/
def leadsWith : List Char → List Char → Bool
  | _, [] => true
  | [], _ :: _ => false
  | c :: cs, p :: ps => c = p && leadsWith cs ps

def occursAt (pat : List Char) : List Char → Bool
  | [] => leadsWith [] pat
  | c :: cs => leadsWith (c :: cs) pat || occursAt pat cs

def tokenIn (tok s : String) : Bool :=
  occursAt tok.toList s.toList

/-- Result of one `POST /process` call (main.py:101-208): the HTTP status,
the `ai_response` JSON field when a JSON body is produced, and whether the
reasoning run was reached.  `decoded` is the outcome of
`text_input.decode("utf-8")`: `none` means the body is not valid UTF-8, the
`UnicodeDecodeError` escapes the handler (it is raised before the `try`
block), and the framework turns the uncaught exception into an HTTP 500. -/
structure ProcessResult where
  status : Nat
  ai_response : Option String
  runInvoked : Bool
deriving DecidableEq, Repr

/-- main.py:101-208 — `process_text`.  `oracle` is the reasoning call on the
enhanced prompt given the memory snapshot; `ctx` is
`get_recent_conversation_context()`. -/
def processText (oracle : List MemoryEntry → String → Except String String)
    (mem : List MemoryEntry) (decoded : Option String) (ctx : String) : ProcessResult :=
  match decoded with
  | none => ⟨500, none, false⟩
  | some text =>
    match oracle mem (text ++ "\n\n" ++ ctx) with
    | Except.ok out => ⟨200, some out, true⟩
    | Except.error e => ⟨200, some ("Error processing with AI: " ++ e), true⟩

/-- main.py:68-83 — `get_recent_conversation_context`. -/
def getRecentConversationContext (bot : Option BotState) : String :=
  match bot with
  | none => "No recent conversation available."
  | some b =>
    match getConversationContext b 5 true with
    | none => "No recent conversation available."
    | some c => c

/-- main.py:265 — the prompt sent by `/summary`. -/
def summaryPrompt (now : PyDateTime) : String :=
  "Generate a short homescreen summary for " ++ now.fmtMinute ++
    ". First check my current geofence and use that context. Greet me by name if you know it."

/-- The JSON body (plus status) returned by `GET /summary`. -/
structure SummaryResponse where
  status : Nat
  content : String
  timestamp : String
  language : String
deriving DecidableEq, Repr

/-- main.py:219-279 — `get_summary`.  The agent's `final_output` is returned
verbatim in `content`; when the run raises, the exception text is embedded
in an error string and the response is still a plain 200 JSON response.
The source calls `datetime.now()` at each formatting site within the same
request; the model uses the single clock value `now` for all of them. -/
def getSummary (oracle : List MemoryEntry → String → Except String String)
    (mem : List MemoryEntry) (now : PyDateTime) (lang : String) : SummaryResponse :=
  let content :=
    match oracle mem (summaryPrompt now) with
    | Except.ok out => out
    | Except.error e => "⚠️ Error: " ++ e ++ "\n\n🕐 " ++ now.fmtMinute
  ⟨200, content, now.isoformat, lang⟩

/-! ## Lemmas about the conversation buffer -/

/-- The last `n` elements of a list. -/
def lastN (n : Nat) (l : List ChatMessage) : List ChatMessage :=
  l.drop (l.length - n)

theorem dequeAppend_eq_lastN (cap : Nat) (d : List ChatMessage) (x : ChatMessage) :
    dequeAppend cap d x = lastN cap (d ++ [x]) := rfl

theorem lastN_length_le (n : Nat) (l : List ChatMessage) : (lastN n l).length ≤ n := by
  simp only [lastN, List.length_drop]
  omega

theorem lastN_append_left (n : Nat) (l r : List ChatMessage) :
    lastN n (lastN n l ++ r) = lastN n (l ++ r) := by
  unfold lastN
  by_cases h : l.length ≤ n
  · have h0 : l.length - n = 0 := Nat.sub_eq_zero_of_le h
    simp [h0]
  · have hk : l.length - n ≤ l.length := Nat.sub_le _ _
    have e1 : l.drop (l.length - n) ++ r = (l ++ r).drop (l.length - n) :=
      (List.drop_append_of_le_length hk).symm
    rw [e1, List.drop_drop]
    congr 1
    simp only [List.length_drop, List.length_append]
    omega

theorem foldl_dequeAppend (cap : Nat) :
    ∀ (msgs a : List ChatMessage),
      a.length ≤ cap → msgs.foldl (dequeAppend cap) a = lastN cap (a ++ msgs)
  | [], a, ha => by
      simp [lastN, Nat.sub_eq_zero_of_le ha]
  | x :: xs, a, _ => by
      have hlen : (dequeAppend cap a x).length ≤ cap := by
        rw [dequeAppend_eq_lastN]
        exact lastN_length_le _ _
      calc (x :: xs).foldl (dequeAppend cap) a
          = xs.foldl (dequeAppend cap) (dequeAppend cap a x) := rfl
        _ = lastN cap (dequeAppend cap a x ++ xs) := foldl_dequeAppend cap xs _ hlen
        _ = lastN cap (lastN cap (a ++ [x]) ++ xs) := by rw [dequeAppend_eq_lastN]
        _ = lastN cap ((a ++ [x]) ++ xs) := lastN_append_left _ _ _
        _ = lastN cap (a ++ x :: xs) := by simp

theorem historyAfter_eq_drop (msgs : List ChatMessage) :
    historyAfter msgs = msgs.drop (msgs.length - 10) := by
  have h := foldl_dequeAppend 10 msgs [] (by simp)
  simpa [historyAfter, lastN] using h

theorem recentMessages_drop (hist : List ChatMessage) (maxm : Nat) :
    ∃ j, recentMessages hist maxm = hist.drop j := by
  unfold recentMessages pyTailSlice
  by_cases h1 : maxm < hist.length
  · by_cases h2 : maxm = 0
    · exact ⟨0, by simp [h1, h2]⟩
    · exact ⟨hist.length - maxm, by simp [h1, h2]⟩
  · exact ⟨0, by simp [h1]⟩

theorem recentMessages_pos (hist : List ChatMessage) (maxm : Nat) (h : 0 < maxm) :
    recentMessages hist maxm = hist.drop (hist.length - maxm) := by
  have h2 : maxm ≠ 0 := by omega
  unfold recentMessages pyTailSlice
  by_cases h1 : maxm < hist.length
  · simp [h1, h2]
  · have h3 : hist.length - maxm = 0 := by omega
    simp [h1, h3]

theorem recentMessages_zero (hist : List ChatMessage) :
    recentMessages hist 0 = hist := by
  unfold recentMessages pyTailSlice
  by_cases h1 : 0 < hist.length <;> simp [h1]

theorem getConversationContext_of_ne_nil (bot : BotState) (maxm : Nat) (ts : Bool)
    (h : bot.conversation_history ≠ []) :
    getConversationContext bot maxm ts
      = some (String.intercalate "\n"
          ("Recent conversation history:" ::
            (recentMessages bot.conversation_history maxm).map
              (formatLine bot.system_username ts))) := by
  unfold getConversationContext
  simp [h]

/-! ## Claim theorems about the conversation buffer -/

/-- C1: for every sequence of appended chat messages exceeding the buffer
capacity N = 10, the conversation-context output shows at most the last 10
messages in arrival order (the selection is a suffix of the appended
sequence — oldest dropped first, FIFO) and never an evicted message, for
every `max_messages` argument. -/
theorem conversationBuffer_fifo_no_evicted
    (msgs : List ChatMessage) (uid rid : String) (su : Option String)
    (st : Int) (mcp : Bool) (maxm : Nat) (ts : Bool)
    (h : 10 < msgs.length) :
    (∃ p, msgs = p ++ recentMessages (historyAfter msgs) maxm)
    ∧ (recentMessages (historyAfter msgs) maxm).length ≤ 10
    ∧ (msgs.Nodup →
        ∀ m ∈ msgs.take (msgs.length - 10), m ∉ recentMessages (historyAfter msgs) maxm)
    ∧ getConversationContext ⟨uid, rid, su, st, mcp, historyAfter msgs⟩ maxm ts
        = some (String.intercalate "\n"
            ("Recent conversation history:" ::
              (recentMessages (historyAfter msgs) maxm).map (formatLine su ts))) := by
  obtain ⟨j, hj⟩ := recentMessages_drop (historyAfter msgs) maxm
  have hha := historyAfter_eq_drop msgs
  have hrec : recentMessages (historyAfter msgs) maxm
      = msgs.drop (msgs.length - 10 + j) := by
    rw [hj, hha, List.drop_drop]
  refine ⟨⟨msgs.take (msgs.length - 10 + j), ?_⟩, ?_, ?_, ?_⟩
  · rw [hrec]
    exact (List.take_append_drop _ msgs).symm
  · rw [hrec]
    simp only [List.length_drop]
    omega
  · intro hnd m hm hmem
    rw [hj, hha] at hmem
    have hm2 : m ∈ msgs.drop (msgs.length - 10) := List.mem_of_mem_drop hmem
    exact (List.disjoint_take_drop hnd (le_refl _)) hm hm2
  · exact getConversationContext_of_ne_nil _ maxm ts (by
      intro hnil
      rw [hha] at hnil
      have hl := congrArg List.length hnil
      simp only [List.length_drop, List.length_nil] at hl
      omega)

/-- Fixed sample timestamp used by the concrete witnesses below. -/
def sampleTime : PyDateTime := ⟨2026, 1, 2, 3, 4, 5, 0⟩

/-- Twelve distinct sample messages, two more than the buffer capacity. -/
def sampleMsgs : List ChatMessage :=
  (List.range 12).map fun i => ⟨"@user:hs", toString i, sampleTime⟩

/-- C1 witness at 12 appended messages. -/
theorem conversationBuffer_fifo_no_evicted_witness :
    10 < sampleMsgs.length
    ∧ ((∃ p, sampleMsgs = p ++ recentMessages (historyAfter sampleMsgs) 10)
      ∧ (recentMessages (historyAfter sampleMsgs) 10).length ≤ 10
      ∧ (sampleMsgs.Nodup →
          ∀ m ∈ sampleMsgs.take (sampleMsgs.length - 10),
            m ∉ recentMessages (historyAfter sampleMsgs) 10)
      ∧ getConversationContext ⟨"@bot:hs", "!r:hs", none, 0, true, historyAfter sampleMsgs⟩ 10 false
          = some (String.intercalate "\n"
              ("Recent conversation history:" ::
                (recentMessages (historyAfter sampleMsgs) 10).map (formatLine none false)))) :=
  ⟨by decide,
   conversationBuffer_fifo_no_evicted sampleMsgs "@bot:hs" "!r:hs" none 0 true 10 false (by decide)⟩

/-- C7: on a non-empty buffer and a positive `max_messages`,
`get_conversation_context` returns the header followed by exactly the most
recent `max_messages` entries (all entries if fewer are buffered), each
rendered by the source's line formatter (`[timestamp] role: body` with
timestamps, `role: body` without), in arrival order (newest last); on an
empty buffer it returns the `None` sentinel. -/
theorem getConversationContext_spec (bot : BotState) (maxm : Nat) (ts : Bool)
    (h1 : bot.conversation_history ≠ []) (h2 : 0 < maxm) :
    getConversationContext bot maxm ts
      = some (String.intercalate "\n"
          ("Recent conversation history:" ::
            ((bot.conversation_history.drop (bot.conversation_history.length - maxm)).map
              (formatLine bot.system_username ts))))
    ∧ (bot.conversation_history.drop (bot.conversation_history.length - maxm)).length
        = min maxm bot.conversation_history.length
    ∧ (∃ p, bot.conversation_history
        = p ++ bot.conversation_history.drop (bot.conversation_history.length - maxm))
    ∧ ∀ (bot2 : BotState), bot2.conversation_history = [] →
        getConversationContext bot2 maxm ts = none := by
  refine ⟨?_, ?_, ?_, ?_⟩
  · rw [getConversationContext_of_ne_nil bot maxm ts h1, recentMessages_pos _ _ h2]
  · simp only [List.length_drop]
    omega
  · exact ⟨bot.conversation_history.take (bot.conversation_history.length - maxm),
      (List.take_append_drop _ _).symm⟩
  · intro bot2 he
    unfold getConversationContext
    simp [he]

/-- C7 witness: a three-message buffer queried for the last two entries with
timestamps. -/
theorem getConversationContext_spec_witness :
    (([⟨"@alice:hs", "one", sampleTime⟩, ⟨"@bob:hs", "two", sampleTime⟩,
        ⟨"@carol:hs", "three", sampleTime⟩] : List ChatMessage) ≠ [] ∧ (0 : Nat) < 2)
    ∧ (getConversationContext
          ⟨"@bot:hs", "!r:hs", none, 0, true,
            [⟨"@alice:hs", "one", sampleTime⟩, ⟨"@bob:hs", "two", sampleTime⟩,
              ⟨"@carol:hs", "three", sampleTime⟩]⟩ 2 true
        = some "Recent conversation history:\n[2026-01-02 03:04] bob: two\n[2026-01-02 03:04] carol: three") := by
  have h := (getConversationContext_spec
    ⟨"@bot:hs", "!r:hs", none, 0, true,
      [⟨"@alice:hs", "one", sampleTime⟩, ⟨"@bob:hs", "two", sampleTime⟩,
        ⟨"@carol:hs", "three", sampleTime⟩]⟩ 2 true (by decide) (by decide)).1
  exact ⟨⟨by decide, by decide⟩, by rw [h]; decide⟩

/-- C10: calling `get_conversation_context` with `max_messages = 0` on a
non-empty buffer returns every buffered message (the Python slice `l[-0:]`
selects the whole list), not none of them. -/
theorem getConversationContext_zero_returns_all (bot : BotState) (ts : Bool)
    (h : bot.conversation_history ≠ []) :
    getConversationContext bot 0 ts
      = some (String.intercalate "\n"
          ("Recent conversation history:" ::
            bot.conversation_history.map (formatLine bot.system_username ts))) := by
  rw [getConversationContext_of_ne_nil bot 0 ts h, recentMessages_zero]

/-- C10 witness: `max_messages = 0` on a two-message buffer renders both
messages. -/
theorem getConversationContext_zero_returns_all_witness :
    getConversationContext
        ⟨"@bot:hs", "!r:hs", none, 0, true,
          [⟨"@alice:hs", "one", sampleTime⟩, ⟨"@bob:hs", "two", sampleTime⟩]⟩ 0 false
      = some "Recent conversation history:\nalice: one\nbob: two" := by
  have h := getConversationContext_zero_returns_all
    ⟨"@bot:hs", "!r:hs", none, 0, true,
      [⟨"@alice:hs", "one", sampleTime⟩, ⟨"@bob:hs", "two", sampleTime⟩]⟩ false (by decide)
  rw [h]; decide

/-! ## Claim theorems about the inbound-message handler -/

/-- C5: an inbound event from a different room, or one whose server
timestamp is earlier than the listener's startup timestamp, is ignored:
the buffer is unchanged, nothing is sent, and no reply run starts. -/
theorem handleMessage_filters (bot : BotState) (oracle : String → Except String String)
    (sendExc : Option String) (roomId : String) (ev : MessageEvent) (now : PyDateTime)
    (h : roomId ≠ bot.room_id ∨ ev.server_timestamp < bot.start_time_ms) :
    handleMessage bot oracle sendExc roomId ev now
      = ⟨bot.conversation_history, [], false⟩ := by
  unfold handleMessage
  rcases h with h | h
  · simp [h]
  · by_cases h2 : roomId ≠ bot.room_id
    · simp [h2]
    · simp [h2, h]

/-- C5 witness: a pre-startup event in the configured room is dropped. -/
theorem handleMessage_filters_witness :
    handleMessage ⟨"@bot:hs", "!room:hs", none, 1000, true, []⟩
        (fun _ => Except.ok "resp") none "!room:hs" ⟨"@user:hs", "old", 500⟩ sampleTime
      = ⟨[], [], false⟩ :=
  handleMessage_filters ⟨"@bot:hs", "!room:hs", none, 1000, true, []⟩
    (fun _ => Except.ok "resp") none "!room:hs" ⟨"@user:hs", "old", 500⟩ sampleTime
    (Or.inr (by decide))

/-- Helper (not a claim theorem): the only bodies `_handle_message` can send
are a successful reasoning output, verbatim, or the constant apology. -/
theorem handleMessage_sent_sources (bot : BotState) (oracle : String → Except String String)
    (sendExc : Option String) (roomId : String) (ev : MessageEvent) (now : PyDateTime) :
    ∀ body ∈ (handleMessage bot oracle sendExc roomId ev now).sent,
      body = apologyMessage ∨ ∃ p out, oracle p = Except.ok out ∧ body = out := by
  intro body hb
  unfold handleMessage at hb
  by_cases h1 : roomId ≠ bot.room_id
  · rw [if_pos h1] at hb
    simp at hb
  · rw [if_neg h1] at hb
    by_cases h2 : ev.server_timestamp < bot.start_time_ms
    · rw [if_pos h2] at hb
      simp at hb
    · rw [if_neg h2] at hb
      by_cases h3 : ev.sender = bot.user_id
      · rw [if_pos h3] at hb
        simp at hb
      · rw [if_neg h3] at hb
        by_cases h4 : bot.mcp_available = false
        · rw [if_pos h4] at hb
          simp at hb
        · rw [if_neg h4] at hb
          cases ho : oracle (buildConversationContext
              { bot with conversation_history :=
                  dequeAppend 10 bot.conversation_history ⟨ev.sender, ev.body, now⟩ }) with
          | error e =>
            rw [ho] at hb
            simp at hb
          | ok out =>
            rw [ho] at hb
            cases sendExc with
            | none =>
              simp at hb
              exact Or.inr ⟨_, out, ho, hb⟩
            | some exc =>
              simp at hb
              exact Or.inl hb

/-- C6 (amended): an accepted inbound message (matching room, not before
startup) is always appended to the buffer, and a reply run is reached if
and only if the sender is not the bot itself AND the MCP memory server
initialized successfully (`mcp_available`). -/
theorem handleMessage_accepted (bot : BotState) (oracle : String → Except String String)
    (sendExc : Option String) (ev : MessageEvent) (now : PyDateTime)
    (h1 : ¬ ev.server_timestamp < bot.start_time_ms) :
    (handleMessage bot oracle sendExc bot.room_id ev now).history
        = dequeAppend 10 bot.conversation_history ⟨ev.sender, ev.body, now⟩
    ∧ ((handleMessage bot oracle sendExc bot.room_id ev now).runInvoked = true
        ↔ (ev.sender ≠ bot.user_id ∧ bot.mcp_available = true)) := by
  unfold handleMessage
  rw [if_neg (show ¬ bot.room_id ≠ bot.room_id from fun hc => hc rfl), if_neg h1]
  by_cases h2 : ev.sender = bot.user_id
  · rw [if_pos h2]
    simp [h2]
  · rw [if_neg h2]
    by_cases h3 : bot.mcp_available = false
    · rw [if_pos h3]
      simp [h2, h3]
    · rw [if_neg h3]
      have h3' : bot.mcp_available = true := by
        revert h3
        cases bot.mcp_available <;> simp
      cases ho : oracle (buildConversationContext
          { bot with conversation_history :=
              dequeAppend 10 bot.conversation_history ⟨ev.sender, ev.body, now⟩ }) with
      | error e => simp [h2, h3']
      | ok out =>
        cases sendExc with
        | none => simp [h2, h3']
        | some exc => simp [h2, h3']

/-- C6 counterexample: with the MCP memory server unavailable, an accepted
non-self-authored message is appended but triggers no reply run, refuting
"a reply run is triggered if and only if the message is not self-authored". -/
theorem handleMessage_mcp_unavailable_no_run :
    ("@user:hs" : String) ≠ "@bot:hs"
    ∧ ¬ (200 : Int) < 100
    ∧ (handleMessage ⟨"@bot:hs", "!room:hs", none, 100, false, []⟩
          (fun _ => Except.ok "resp") none "!room:hs" ⟨"@user:hs", "hello", 200⟩ sampleTime).history
        = [⟨"@user:hs", "hello", sampleTime⟩]
    ∧ (handleMessage ⟨"@bot:hs", "!room:hs", none, 100, false, []⟩
          (fun _ => Except.ok "resp") none "!room:hs" ⟨"@user:hs", "hello", 200⟩ sampleTime).runInvoked
        = false := by
  refine ⟨by decide, by decide, by decide, by decide⟩

/-- C6 witness (amended claim at a concrete accepted message with MCP
available): the message is appended and the run is reached. -/
theorem handleMessage_accepted_witness :
    (handleMessage ⟨"@bot:hs", "!room:hs", none, 100, true, []⟩
        (fun _ => Except.ok "resp") none "!room:hs" ⟨"@user:hs", "hello", 200⟩ sampleTime).history
      = dequeAppend 10 [] ⟨"@user:hs", "hello", sampleTime⟩
    ∧ ((handleMessage ⟨"@bot:hs", "!room:hs", none, 100, true, []⟩
          (fun _ => Except.ok "resp") none "!room:hs" ⟨"@user:hs", "hello", 200⟩ sampleTime).runInvoked = true
        ↔ (("@user:hs" : String) ≠ "@bot:hs" ∧ true = true)) :=
  handleMessage_accepted ⟨"@bot:hs", "!room:hs", none, 100, true, []⟩
    (fun _ => Except.ok "resp") none ⟨"@user:hs", "hello", 200⟩ sampleTime (by decide)

/-- C4 counterexample: an accepted message whose AI-processing step raises is
swallowed silently by the inner handler (matrix_bot.py:121-123) — the run
was reached, yet nothing at all is sent, in particular no apology. -/
theorem handleMessage_ai_error_silent :
    (handleMessage ⟨"@bot:hs", "!room:hs", none, 100, true, []⟩
        (fun _ => Except.error "boom") none "!room:hs" ⟨"@user:hs", "hi", 200⟩ sampleTime).runInvoked
      = true
    ∧ (handleMessage ⟨"@bot:hs", "!room:hs", none, 100, true, []⟩
        (fun _ => Except.error "boom") none "!room:hs" ⟨"@user:hs", "hi", 200⟩ sampleTime).sent
      = [] := by
  refine ⟨by decide, by decide⟩

/-- C4 (amended): a failing AI-processing step sends nothing at all; a
failure escaping the inner guard (e.g. the response send raising) makes the
outer handler send exactly the constant apology; and every body the handler
can ever send is either a successful reasoning output verbatim or that
constant — the error detail never appears in an outbound message. -/
theorem handleMessage_failure_modes (bot : BotState)
    (oracle : String → Except String String) (sendExc : Option String)
    (roomId : String) (ev : MessageEvent) (now : PyDateTime) :
    ((∀ p, ∃ e, oracle p = Except.error e) →
        (handleMessage bot oracle sendExc roomId ev now).sent = [])
    ∧ (∀ body ∈ (handleMessage bot oracle sendExc roomId ev now).sent,
        body = apologyMessage ∨ ∃ p out, oracle p = Except.ok out ∧ body = out)
    ∧ (∀ exc out,
        roomId = bot.room_id →
        ¬ ev.server_timestamp < bot.start_time_ms →
        ¬ ev.sender = bot.user_id →
        ¬ bot.mcp_available = false →
        oracle (buildConversationContext
            { bot with conversation_history := dequeAppend 10 bot.conversation_history ⟨ev.sender, ev.body, now⟩ })
          = Except.ok out →
        (handleMessage bot oracle (some exc) roomId ev now).sent = [apologyMessage]) := by
  refine ⟨?_, handleMessage_sent_sources bot oracle sendExc roomId ev now, ?_⟩
  · intro hall
    unfold handleMessage
    by_cases h1 : roomId ≠ bot.room_id
    · rw [if_pos h1]
    · rw [if_neg h1]
      by_cases h2 : ev.server_timestamp < bot.start_time_ms
      · rw [if_pos h2]
      · rw [if_neg h2]
        by_cases h3 : ev.sender = bot.user_id
        · rw [if_pos h3]
        · rw [if_neg h3]
          by_cases h4 : bot.mcp_available = false
          · rw [if_pos h4]
          · rw [if_neg h4]
            obtain ⟨e, he⟩ := hall (buildConversationContext
              { bot with conversation_history :=
                  dequeAppend 10 bot.conversation_history ⟨ev.sender, ev.body, now⟩ })
            rw [he]
  · intro exc out hroom hts hsender hmcp ho
    subst hroom
    unfold handleMessage
    rw [if_neg (show ¬ bot.room_id ≠ bot.room_id from fun hc => hc rfl),
      if_neg hts, if_neg hsender, if_neg hmcp, ho]

/-- C4 witness: with an always-failing reasoning step, nothing is sent. -/
theorem handleMessage_failure_modes_witness :
    (handleMessage ⟨"@bot:hs", "!room:hs", none, 100, true, []⟩
        (fun _ => Except.error "ValueError") (some "send failed") "!room:hs"
        ⟨"@user:hs", "hi", 200⟩ sampleTime).sent = [] :=
  (handleMessage_failure_modes ⟨"@bot:hs", "!room:hs", none, 100, true, []⟩
      (fun _ => Except.error "ValueError") (some "send failed") "!room:hs"
      ⟨"@user:hs", "hi", 200⟩ sampleTime).1
    (fun _ => ⟨"ValueError", rfl⟩)

/-! ## Claim theorems about the HTTP endpoints -/

/-- The marker token used in the C2 scenario. -/
def markerToken : String := "SECRET-MARKER-123"

/-- A memory snapshot holding one `system`-typed entry carrying the marker. -/
def sampleMem : List MemoryEntry := [⟨"system", markerToken⟩]

/-- A possible external-reasoning behaviour that echoes the contents of the
entries the memory tools expose to it. -/
def echoOracle : List MemoryEntry → String → Except String String :=
  fun mem _ => Except.ok (String.intercalate "; " (mem.map MemoryEntry.content))

/-- C2 counterexample: the code contains no structural filter between the
memory snapshot and the `/summary` body — the agent output is returned
verbatim — so a reasoning behaviour that echoes memory contents makes the
`system` entry's marker token appear in the `GET /summary` payload. -/
theorem summary_leaks_system_marker :
    sampleMem.map MemoryEntry.entryType = ["system"]
    ∧ tokenIn markerToken (getSummary echoOracle sampleMem sampleTime "en").content = true := by
  refine ⟨by decide, by decide⟩

/-- C2 (amended): the service itself adds no memory content to outbound
payloads — the `/summary` body is the reasoning output verbatim on success,
so a marker token absent from that output is absent from the response, and
every outbound chat body is a successful reasoning output verbatim or the
constant apology; the no-leak guarantee holds exactly when the external
reasoning output avoids the token, and is not enforced by the code itself. -/
theorem outbound_payloads_passthrough
    (oracle : List MemoryEntry → String → Except String String)
    (mem : List MemoryEntry) (now : PyDateTime) (lang tok out : String)
    (bot : BotState) (chatOracle : String → Except String String)
    (sendExc : Option String) (roomId : String) (ev : MessageEvent) :
    (oracle mem (summaryPrompt now) = Except.ok out →
        (getSummary oracle mem now lang).content = out
        ∧ (tokenIn tok out = false →
            tokenIn tok (getSummary oracle mem now lang).content = false))
    ∧ (∀ body ∈ (handleMessage bot chatOracle sendExc roomId ev now).sent,
        body = apologyMessage ∨ ∃ p o, chatOracle p = Except.ok o ∧ body = o) := by
  constructor
  · intro ho
    have hc : (getSummary oracle mem now lang).content = out := by
      unfold getSummary
      rw [ho]
    refine ⟨hc, fun ht => ?_⟩
    rw [hc]
    exact ht
  · exact handleMessage_sent_sources bot chatOracle sendExc roomId ev now

/-- C2 witness: a reasoning output free of the marker keeps the `/summary`
payload free of it. -/
theorem outbound_payloads_passthrough_witness :
    (getSummary (fun _ _ => Except.ok "all quiet") sampleMem sampleTime "en").content
      = "all quiet"
    ∧ tokenIn markerToken
        (getSummary (fun _ _ => Except.ok "all quiet") sampleMem sampleTime "en").content
      = false := by
  have h := (outbound_payloads_passthrough (fun _ _ => Except.ok "all quiet") sampleMem
      sampleTime "en" markerToken "all quiet" ⟨"", "", none, 0, false, []⟩
      (fun _ => Except.ok "x") none "" ⟨"", "", 0⟩).1 rfl
  exact ⟨h.1, h.2 (by decide)⟩

/-- C3: when the reasoning step raises, both `POST /process` and
`GET /summary` still answer with HTTP 200 and embed the error text in-band:
in the `ai_response` field (prefixed `Error processing with AI: `) and in
the `content` field respectively — no HTTP error status is produced. -/
theorem endpoints_error_in_band
    (pOracle sOracle : List MemoryEntry → String → Except String String)
    (mem : List MemoryEntry) (text ctx : String) (now : PyDateTime) (lang e1 e2 : String)
    (h1 : pOracle mem (text ++ "\n\n" ++ ctx) = Except.error e1)
    (h2 : sOracle mem (summaryPrompt now) = Except.error e2) :
    processText pOracle mem (some text) ctx
        = ⟨200, some ("Error processing with AI: " ++ e1), true⟩
    ∧ getSummary sOracle mem now lang
        = ⟨200, "⚠️ Error: " ++ e2 ++ "\n\n🕐 " ++ now.fmtMinute, now.isoformat, lang⟩ := by
  constructor
  · have hstep : processText pOracle mem (some text) ctx
        = match pOracle mem (text ++ "\n\n" ++ ctx) with
          | Except.ok out => ⟨200, some out, true⟩
          | Except.error e => ⟨200, some ("Error processing with AI: " ++ e), true⟩ := rfl
    rw [hstep, h1]
  · unfold getSummary
    rw [h2]

/-- C3 witness at a concrete failing run. -/
theorem endpoints_error_in_band_witness :
    processText (fun _ _ => Except.error "timeout") [] (some "wake up") "no ctx"
        = ⟨200, some "Error processing with AI: timeout", true⟩
    ∧ getSummary (fun _ _ => Except.error "timeout") [] sampleTime "en"
        = ⟨200, "⚠️ Error: timeout\n\n🕐 2026-01-02 03:04", "2026-01-02T03:04:05", "en"⟩ := by
  have h := endpoints_error_in_band (fun _ _ => Except.error "timeout")
    (fun _ _ => Except.error "timeout") [] "wake up" "no ctx" sampleTime "en"
    "timeout" "timeout" rfl rfl
  refine ⟨h.1, ?_⟩
  rw [h.2]
  decide

/-- C9: a `POST /process` body that is not valid UTF-8 makes
`text_input.decode("utf-8")` raise before the `try` block is entered: the
reasoning run is never invoked for that request, no 200 JSON body is built,
and the uncaught exception surfaces as the framework's HTTP 500. -/
theorem processText_invalid_utf8_no_run
    (oracle : List MemoryEntry → String → Except String String)
    (mem : List MemoryEntry) (ctx : String) :
    processText oracle mem none ctx = ⟨500, none, false⟩ := rfl

/-! ## Claim theorems about role resolution -/

/-- C8 counterexample: with system account `alice` configured, a message from
`@system:matrix.org` is rendered with the literal role `system` although its
normalized sender `system` differs from the configured identifier,
refuting the claimed "if and only if". -/
theorem role_system_without_configured_match :
    getConversationContext
        ⟨"@bot:hs", "!room:hs", some "alice", 0, true,
          [⟨"@system:matrix.org", "hi", sampleTime⟩]⟩ 10 false
      = some "Recent conversation history:\nsystem: hi"
    ∧ normalizeSender "@system:matrix.org" = "system"
    ∧ ("system" : String) ≠ "alice" := by
  refine ⟨by decide, by decide, by decide⟩

/-- C8 (amended): the rendered role is computed from the normalized sender
(text before the first colon, every `@` removed); it is the literal
`system` iff a non-empty system-account identifier is configured and the
normalized sender equals it, or the normalized sender is itself the literal
`system`; in every other case the role is the normalized sender name. -/
theorem roleFor_characterization (su : Option String) (sender : String) (m : ChatMessage) :
    (roleFor su (normalizeSender sender) = "system"
      ↔ ((pyTruthy su = true ∧ su = some (normalizeSender sender))
          ∨ normalizeSender sender = "system"))
    ∧ (roleFor su (normalizeSender sender) = "system"
        ∨ roleFor su (normalizeSender sender) = normalizeSender sender)
    ∧ formatLine su false m = roleFor su (normalizeSender m.sender) ++ ": " ++ m.message := by
  refine ⟨?_, ?_, rfl⟩
  · unfold roleFor
    by_cases h : pyTruthy su = true ∧ some (normalizeSender sender) = su
    · rw [if_pos h]
      exact ⟨fun _ => Or.inl ⟨h.1, h.2.symm⟩, fun _ => rfl⟩
    · rw [if_neg h]
      constructor
      · intro hs
        exact Or.inr hs
      · rintro (⟨hp, hsu⟩ | hs)
        · exact absurd ⟨hp, hsu.symm⟩ h
        · exact hs
  · unfold roleFor
    by_cases h : pyTruthy su = true ∧ some (normalizeSender sender) = su
    · rw [if_pos h]
      exact Or.inl rfl
    · rw [if_neg h]
      exact Or.inr rfl

/-- C8 amended-claim witness: a configured system account matching the
normalized sender yields the literal role `system`. -/
theorem roleFor_characterization_witness :
    roleFor (some "alice") (normalizeSender "@alice:hs") = "system" := by
  have h := (roleFor_characterization (some "alice") "@alice:hs"
    ⟨"@alice:hs", "x", sampleTime⟩).1
  exact h.mpr (Or.inl ⟨by decide, by decide⟩)
